import Mathlib

/-!
Verification of the CUDA driver-compatibility and repair subsystem of the
repository (cuda-setup/cuda_cli).  The Python sources are shallowly embedded:

* `cuda_cli/utils/subprocess_utils.py` — `validate_path_safe` over a lexical
  model of `pathlib.Path.resolve` / `is_relative_to`.
* `cuda_cli/core/driver.py` — `compare_versions`, `version_meets_minimum`,
  `get_driver_version`, `get_driver_cuda_version`, `get_gpu_name`,
  `check_driver_compatibility`.  The third-party `packaging.version.parse`
  used by `compare_versions` is modelled by a PEP 440 parser and comparison
  key covering epoch, dotted numeric releases and the pre/post/dev suffixes
  (local version labels, which the repository never uses, are outside the
  model and fail to parse).
* `cuda_cli/core/nvidia_smi.py` — the repair engine (`test_nvidia_smi`,
  `backup_nvidia_smi`, `create_nvidia_smi_symlink`, `fix_nvidia_smi`) over an
  explicit `World` describing the filesystem and the outcomes of the
  privileged (`sudo`) operations; every filesystem mutation is recorded in an
  action trace.
* `cuda_cli/core/system.py` — `is_wsl2` over an explicit environment record.

Exceptions are modelled with `Except`; a Python function that can raise
becomes a Lean function into `Except`.  Error classes that the spec names
abstractly (`UnsafePathError`, `HostBinaryMissing`, `RepairError`,
`VersionParseError`, `DriverUndeterminedError`) are all realised in the code
as `NvidiaSmiError`/`DriverError`/`packaging.version.InvalidVersion` values
distinguished by their message; the embedding keeps the concrete messages.
-/

deriving instance DecidableEq for Except

/-! ### Path model (pathlib fragment used by `validate_path_safe`)

`Path.resolve()` is modelled lexically: split on `/`, drop empty and `.`
components, let `..` pop.  The one resolution failure the code can hit and
catches (`ValueError: embedded null byte`, raised by the underlying OS call)
is modelled by failing on a NUL character. -/

/-- `\s` of Python `re` and `str.strip` (ASCII fragment relevant here). -/
def wsChar (c : Char) : Bool :=
  c = ' ' ∨ c = '\t' ∨ c = '\n' ∨ c = '\r' ∨ c = Char.ofNat 11 ∨ c = Char.ofNat 12

def trimL (cs : List Char) : List Char :=
  ((cs.dropWhile wsChar).reverse.dropWhile wsChar).reverse

def lowerL (cs : List Char) : List Char :=
  cs.map Char.toLower

def splitOnCharAux (sep : Char) : List Char → List Char → List String
  | [], acc => [String.mk acc.reverse]
  | c :: cs, acc =>
    if c = sep then String.mk acc.reverse :: splitOnCharAux sep cs []
    else splitOnCharAux sep cs (c :: acc)

/-- Split on a separator character, like `str.split` / `String.splitOn`. -/
def splitOnChar (sep : Char) (cs : List Char) : List String :=
  splitOnCharAux sep cs []

def normStep (acc : List String) (c : String) : List String :=
  if c = "" ∨ c = "." then acc
  else if c = ".." then acc.dropLast
  else acc ++ [c]

def normalizeComponents (cs : List String) : List String :=
  cs.foldl normStep []

def resolvePath (p : String) : Option (List String) :=
  if p.toList.any (fun c => c = Char.ofNat 0) then none
  else some (normalizeComponents (splitOnChar '/' p.toList))

/-- `subprocess_utils.validate_path_safe(path, allowed_parent)`: resolve the
path; if an `allowed_parent` is given, check the resolved path is relative to
the resolved parent; resolution failure is caught and yields `False`. -/
def validate_path_safe (path : String) (allowed_parent : Option String) : Bool :=
  match resolvePath path with
  | none => false
  | some r =>
    match allowed_parent with
    | none => true
    | some a =>
      match resolvePath a with
      | none => false
      | some ra => ra.isPrefixOf r

/-! ### Version comparator (`driver.py` + `packaging.version`) -/

/-- Parsed PEP 440 version as `packaging.version.Version` represents it:
epoch, dotted numeric release, optional pre-release `(phase, number)` with
phase `0 = a/alpha`, `1 = b/beta`, `2 = c/rc/pre/preview`, optional
post-release number and optional dev-release number. -/
structure PyVersion where
  epoch : Nat
  release : List Nat
  pre : Option (Nat × Nat)
  post : Option Nat
  dev : Option Nat
deriving DecidableEq, Repr

def digitsToNat (ds : List Char) : Nat :=
  ds.foldl (fun n c => 10 * n + (c.toNat - 48)) 0

def stripPrefixL : List Char → List Char → Option (List Char)
  | [], cs => some cs
  | _ :: _, [] => none
  | w :: ws, c :: cs => if w = c then stripPrefixL ws cs else none

/-- One optional separator character `-`, `_` or `.` (PEP 440 `[-_\.]?`). -/
def stripSep : List Char → List Char
  | [] => []
  | c :: cs => if c = '-' ∨ c = '_' ∨ c = '.' then cs else c :: cs

/-- Pre-release keywords with their normalised phase, longest match first
(mirrors the backtracking outcome of the PEP 440 regex alternation). -/
def preKeyword (cs : List Char) : Option (Nat × List Char) :=
  match stripPrefixL "alpha".toList cs with
  | some r => some (0, r)
  | none =>
  match stripPrefixL "beta".toList cs with
  | some r => some (1, r)
  | none =>
  match stripPrefixL "preview".toList cs with
  | some r => some (2, r)
  | none =>
  match stripPrefixL "pre".toList cs with
  | some r => some (2, r)
  | none =>
  match stripPrefixL "rc".toList cs with
  | some r => some (2, r)
  | none =>
  match stripPrefixL "a".toList cs with
  | some r => some (0, r)
  | none =>
  match stripPrefixL "b".toList cs with
  | some r => some (1, r)
  | none =>
  match stripPrefixL "c".toList cs with
  | some r => some (2, r)
  | none => none

def postKeyword (cs : List Char) : Option (List Char) :=
  match stripPrefixL "post".toList cs with
  | some r => some r
  | none =>
  match stripPrefixL "rev".toList cs with
  | some r => some r
  | none =>
  match stripPrefixL "r".toList cs with
  | some r => some r
  | none => none

/-- Remaining `.N` release segments (first segment already consumed). -/
def parseRelAux : Nat → List Char → List Nat → List Nat × List Char
  | 0, cs, acc => (acc, cs)
  | _ + 1, [], acc => (acc, [])
  | fuel + 1, c :: cs, acc =>
    if c = '.' then
      match cs with
      | d :: rest =>
        if d.isDigit then
          parseRelAux fuel ((d :: rest).dropWhile Char.isDigit)
            (acc ++ [digitsToNat ((d :: rest).takeWhile Char.isDigit)])
        else (acc, c :: cs)
      | [] => (acc, c :: cs)
    else (acc, c :: cs)

def parseOptPre (cs : List Char) : Option (Nat × Nat) × List Char :=
  match preKeyword (stripSep cs) with
  | none => (none, cs)
  | some (ph, rest) =>
    let rest1 := stripSep rest
    (some (ph, digitsToNat (rest1.takeWhile Char.isDigit)),
      rest1.dropWhile Char.isDigit)

def tryKeywordPost (cs : List Char) : Option Nat × List Char :=
  match postKeyword (stripSep cs) with
  | none => (none, cs)
  | some rest =>
    let rest1 := stripSep rest
    (some (digitsToNat (rest1.takeWhile Char.isDigit)),
      rest1.dropWhile Char.isDigit)

def parseOptPost (cs : List Char) : Option Nat × List Char :=
  match cs with
  | '-' :: c :: rest =>
    if c.isDigit then
      (some (digitsToNat ((c :: rest).takeWhile Char.isDigit)),
        (c :: rest).dropWhile Char.isDigit)
    else tryKeywordPost cs
  | _ => tryKeywordPost cs

def parseOptDev (cs : List Char) : Option Nat × List Char :=
  match stripPrefixL "dev".toList (stripSep cs) with
  | none => (none, cs)
  | some rest =>
    let rest1 := stripSep rest
    (some (digitsToNat (rest1.takeWhile Char.isDigit)),
      rest1.dropWhile Char.isDigit)

/-- `packaging.version.parse`: surrounding whitespace and a leading `v` are
allowed, then optional `N!` epoch, a mandatory dotted numeric release and
optional pre/post/dev suffixes; anything left over is a parse failure
(`InvalidVersion`), modelled as `none`. -/
def parsePy (s : String) : Option PyVersion :=
  let cs0 := trimL (lowerL s.toList)
  let cs1 := match cs0 with | 'v' :: r => r | _ => cs0
  if (cs1.takeWhile Char.isDigit).isEmpty then none
  else
    let epochRel : Nat × List Char :=
      match cs1.dropWhile Char.isDigit with
      | '!' :: r1 => (digitsToNat (cs1.takeWhile Char.isDigit), r1)
      | _ => (0, cs1)
    let ds1 := epochRel.2.takeWhile Char.isDigit
    let rest1 := epochRel.2.dropWhile Char.isDigit
    if ds1.isEmpty then none
    else
      let relRest := parseRelAux rest1.length rest1 [digitsToNat ds1]
      let preRest := parseOptPre relRest.2
      let postRest := parseOptPost preRest.2
      let devRest := parseOptDev postRest.2
      if devRest.2.isEmpty then
        some ⟨epochRel.1, relRest.1, preRest.1, postRest.1, devRest.1⟩
      else none

def cmpNat (a b : Nat) : Int :=
  if a < b then -1 else if b < a then 1 else 0

def cmpPair (a b : Nat × Nat) : Int :=
  if cmpNat a.1 b.1 ≠ 0 then cmpNat a.1 b.1 else cmpNat a.2 b.2

def anyPos (l : List Nat) : Bool :=
  l.any (fun x => 0 < x)

/-- Release tuples compare with implicit trailing zeros (packaging strips
trailing zeros before comparing). -/
def cmpRelease : List Nat → List Nat → Int
  | [], bs => if anyPos bs then -1 else 0
  | a :: as, [] => if 0 < a then 1 else cmpRelease as []
  | a :: as, b :: bs =>
    if a < b then -1 else if b < a then 1 else cmpRelease as bs

/-- Rank of the pre-release key in packaging's `_cmpkey`: a dev-only release
sorts below any pre-release, which sorts below a final release. -/
def preRank (v : PyVersion) : Nat :=
  match v.pre with
  | some _ => 1
  | none =>
    match v.post, v.dev with
    | none, some _ => 0
    | _, _ => 2

def cmpPre (a b : PyVersion) : Int :=
  if preRank a ≠ preRank b then cmpNat (preRank a) (preRank b)
  else
    match a.pre, b.pre with
    | some pa, some pb => cmpPair pa pb
    | _, _ => 0

def cmpPost (a b : PyVersion) : Int :=
  match a.post, b.post with
  | none, none => 0
  | none, some _ => -1
  | some _, none => 1
  | some x, some y => cmpNat x y

def cmpDev (a b : PyVersion) : Int :=
  match a.dev, b.dev with
  | none, none => 0
  | none, some _ => 1
  | some _, none => -1
  | some x, some y => cmpNat x y

def cmpPyVersion (a b : PyVersion) : Int :=
  if cmpNat a.epoch b.epoch ≠ 0 then cmpNat a.epoch b.epoch
  else if cmpRelease a.release b.release ≠ 0 then cmpRelease a.release b.release
  else if cmpPre a b ≠ 0 then cmpPre a b
  else if cmpPost a b ≠ 0 then cmpPost a b
  else cmpDev a b

/-- `packaging.version.InvalidVersion`, carrying the offending string; it is
the concrete realisation of the spec's `VersionParseError`. -/
inductive VerErr
  | invalidVersion (s : String)
deriving DecidableEq, Repr

/-- `driver.compare_versions(ver1, ver2)`: parse both strings with
`version.parse` (first `ver1`, then `ver2`, matching evaluation order of the
exceptions) and return `-1`/`0`/`1`. -/
def compare_versions (ver1 ver2 : String) : Except VerErr Int :=
  match parsePy ver1 with
  | none => .error (.invalidVersion ver1)
  | some a =>
    match parsePy ver2 with
    | none => .error (.invalidVersion ver2)
    | some b => .ok (cmpPyVersion a b)

/-- `driver.version_meets_minimum`: `compare_versions(...) >= 0`, with a
parse exception propagating. -/
def version_meets_minimum (driver_version minimum_version : String) :
    Except VerErr Bool :=
  (compare_versions driver_version minimum_version).map (fun c => decide (0 ≤ c))

/-- A dot-delimited segment that is not purely numeric, the claim's notion of
a "malformed (non-numeric) dot-delimited segment". -/
def hasNonNumericSegment (s : String) : Bool :=
  (splitOnChar '.' s.toList).any
    (fun seg => ! (seg.toList.all Char.isDigit && seg != ""))

/-! ### Repair engine (`nvidia_smi.py`)

The environment of the repair engine is an explicit `World`: the state of the
host-side binary `WINDOWS_NVIDIA_SMI_PATH`, the on-disk state of the local
path `WSL_NVIDIA_SMI_PATH`, whether that path's parent directory exists,
whether each privileged (`sudo`) helper invocation exits with code 0, and the
`strftime` timestamp used for backup names.  On the deployed system the plain
command `nvidia-smi` (used by `test_nvidia_smi` when called with no explicit
path) resolves through `PATH` to the local path, so the no-argument probe
executes the local binary.  Executing a missing file raises, which
`test_nvidia_smi` catches as `False`.  The dynamic stderr/exception text that
the code appends to its error messages is abstracted away; the fixed message
prefixes are kept. -/

inductive LocalFs
  | missing
  | regular (works : Bool)
  | symlinkTo (target : String)
deriving DecidableEq, Repr

structure World where
  hostExists : Bool
  hostWorks : Bool
  localFs : LocalFs
  parentExists : Bool
  sudoMvOk : Bool
  sudoRmOk : Bool
  sudoMkdirOk : Bool
  sudoLnOk : Bool
  timestamp : String
deriving DecidableEq, Repr

def wslNvidiaSmiPath : String := "/usr/lib/wsl/lib/nvidia-smi"

def wslParentDir : String := "/usr/lib/wsl/lib"

def windowsNvidiaSmiPath : String := "/mnt/c/Windows/System32/nvidia-smi.exe"

/-- Privileged filesystem mutations performed by the engine, in order. -/
inductive FsAction
  | backupMove (dst : String)
  | removeSymlink
  | mkdirParent
  | createSymlink
deriving DecidableEq, Repr

/-- `NvidiaSmiError` with its message. -/
inductive NvErr
  | nvidiaSmiError (msg : String)
deriving DecidableEq, Repr

/-- `WSL_NVIDIA_SMI_PATH.exists()` — `pathlib.exists` follows symlinks, so a
dangling symlink does not "exist". -/
def pathExistsLocal (w : World) : Bool :=
  match w.localFs with
  | .missing => false
  | .regular _ => true
  | .symlinkTo t => t == windowsNvidiaSmiPath && w.hostExists

/-- `is_nvidia_smi_symlink()`. -/
def is_nvidia_smi_symlink (w : World) : Bool :=
  match w.localFs with
  | .symlinkTo _ => true
  | _ => false

/-- Outcome of executing the local path: a missing file fails to spawn, a
regular file succeeds iff it works, a symlink to the host binary succeeds iff
the host binary exists and works (a symlink to anything else is dangling in
the worlds of interest and fails). -/
def execLocal (w : World) : Bool :=
  match w.localFs with
  | .missing => false
  | .regular works => works
  | .symlinkTo t => t == windowsNvidiaSmiPath && w.hostExists && w.hostWorks

/-- `test_nvidia_smi(nvidia_smi_path)`: run the given path, or the plain
`nvidia-smi` command (which `PATH` resolves to the local path) when `None`;
`True` iff the run returns exit code 0, every exception giving `False`. -/
def test_nvidia_smi (w : World) (p : Option String) : Bool :=
  match p with
  | none => execLocal w
  | some q =>
    if q == wslNvidiaSmiPath then execLocal w
    else if q == windowsNvidiaSmiPath then w.hostExists && w.hostWorks
    else false

/-- `get_nvidia_smi_target()`: the resolved target of the local symlink. -/
def get_nvidia_smi_target (w : World) : Option String :=
  match w.localFs with
  | .symlinkTo t => some t
  | _ => none

/-- The timestamped backup path `parent / f"{name}.old.{timestamp}"`. -/
def backupPathOf (ts : String) : String :=
  wslParentDir ++ "/" ++ "nvidia-smi.old." ++ ts

/-- `backup_nvidia_smi()`: no-op when the local path is absent or a symlink;
otherwise validate the constructed backup path against the parent directory
(raising `NvidiaSmiError "Invalid backup path"` if unsafe) and `sudo mv` the
file to the backup path.  Returns the backup path together with the new world
and the trace of mutations. -/
def backup_nvidia_smi (w : World) :
    Except NvErr (Option String) × World × List FsAction :=
  if ¬ pathExistsLocal w ∨ is_nvidia_smi_symlink w then (.ok none, w, [])
  else
    let backup_path := backupPathOf w.timestamp
    if ¬ validate_path_safe backup_path (some wslParentDir) then
      (.error (.nvidiaSmiError "Invalid backup path"), w, [])
    else if w.sudoMvOk then
      (.ok (some backup_path), { w with localFs := .missing },
        [.backupMove backup_path])
    else (.error (.nvidiaSmiError "Failed to backup nvidia-smi"), w, [])

/-- `create_nvidia_smi_symlink()`: require the host binary, `sudo mkdir -p`
the parent when absent, then `sudo ln -sf` the local path to the host path. -/
def create_nvidia_smi_symlink (w : World) :
    Except NvErr Bool × World × List FsAction :=
  if ¬ w.hostExists then
    (.error (.nvidiaSmiError
      ("Windows nvidia-smi not found at " ++ windowsNvidiaSmiPath ++
        ". Please install NVIDIA drivers on Windows first.")), w, [])
  else if ¬ w.parentExists then
    if w.sudoMkdirOk then
      if w.sudoLnOk then
        (.ok true,
          { w with parentExists := true,
                   localFs := .symlinkTo windowsNvidiaSmiPath },
          [.mkdirParent, .createSymlink])
      else
        (.error (.nvidiaSmiError "Failed to create symlink"),
          { w with parentExists := true }, [.mkdirParent])
    else
      (.error (.nvidiaSmiError ("Failed to create directory " ++ wslParentDir)),
        w, [])
  else if w.sudoLnOk then
    (.ok true, { w with localFs := .symlinkTo windowsNvidiaSmiPath },
      [.createSymlink])
  else (.error (.nvidiaSmiError "Failed to create symlink"), w, [])

/-- Shared tail of `fix_nvidia_smi`: create the symlink, then re-run the
no-argument liveness probe; accumulated message parts are joined with `"; "`. -/
def fixTail (w : World) (msgs : List String) (acts : List FsAction) :
    Except NvErr (Bool × String) × World × List FsAction :=
  match create_nvidia_smi_symlink w with
  | (.error e, w1, as) => (.error e, w1, acts ++ as)
  | (.ok _, w1, as) =>
    let msgs1 := msgs ++ ["Created symlink to " ++ windowsNvidiaSmiPath]
    if test_nvidia_smi w1 none then
      (.ok (true, String.intercalate "; "
        (msgs1 ++ ["nvidia-smi is now working"])), w1, acts ++ as)
    else
      (.ok (false, "Symlink created but nvidia-smi still not working"),
        w1, acts ++ as)

/-- The regular-file block of `fix_nvidia_smi` (reached after the symlink
block): an existing non-symlink that passes the probe is already working;
one that fails is backed up before the shared tail. -/
def fixRegularBlock (w : World) (acts : List FsAction) :
    Except NvErr (Bool × String) × World × List FsAction :=
  if pathExistsLocal w && ! is_nvidia_smi_symlink w then
    if test_nvidia_smi w (some wslNvidiaSmiPath) then
      (.ok (true, "nvidia-smi already working, no fix needed"), w, acts)
    else
      match backup_nvidia_smi w with
      | (.error e, w1, as) => (.error e, w1, acts ++ as)
      | (.ok bp, w1, as) =>
        fixTail w1
          ["Backed up old nvidia-smi to " ++
            (match bp with | some p => p | none => "None")]
          (acts ++ as)
  else fixTail w [] acts

/-- `fix_nvidia_smi()`: raise when the host binary is absent; test and, if
broken, remove an existing symlink; test and, if broken, back up an existing
regular file; then create the symlink and re-probe. -/
def fix_nvidia_smi (w : World) :
    Except NvErr (Bool × String) × World × List FsAction :=
  if ¬ w.hostExists then
    (.error (.nvidiaSmiError
      "Windows nvidia-smi not found. Please install NVIDIA drivers on Windows first."),
      w, [])
  else if is_nvidia_smi_symlink w then
    if test_nvidia_smi w none then
      (.ok (true, "nvidia-smi already working (symlink to " ++
        (match get_nvidia_smi_target w with | some t => t | none => "None") ++
        ")"), w, [])
    else if w.sudoRmOk then
      fixRegularBlock { w with localFs := .missing } [.removeSymlink]
    else
      (.error (.nvidiaSmiError "Failed to remove broken symlink"), w, [])
  else fixRegularBlock w []

def isBackupMove : FsAction → Bool
  | .backupMove _ => true
  | _ => false

def countBackups (as : List FsAction) : Nat :=
  as.countP isBackupMove

/-! ### Driver query service and compatibility evaluator (`driver.py`)

The environment is a `DrvWorld`: whether the host binary path exists, and the
outcomes of the two distinct `nvidia-smi` invocations (the plain one shared
by the version queries, and the `--query-gpu=name` one).  An outcome is
either the `(returncode, stdout, stderr)` triple or the text of a
`SubprocessError` (spawn failure / timeout). -/

def MIN_WINDOWS_DRIVER : String := "528.33"

def RECOMMENDED_DRIVER : String := "566.03"

def CUDA_VERSION : String := "12.9"

/-- `DriverError` (driver.py) or a propagating
`packaging.version.InvalidVersion` escaping from the comparator. -/
inductive DrvErr
  | driverError (msg : String)
  | invalidVersion (s : String)
deriving DecidableEq, Repr

structure DrvWorld where
  hostExists : Bool
  smiOutcome : Except String (Int × String × String)
  gpuOutcome : Except String (Int × String × String)
deriving DecidableEq, Repr

def numTokChar (c : Char) : Bool :=
  c.isDigit ∨ c = '.'

/-- Try the pattern `<label>\s*([0-9.]+)` at the start of `cs`. -/
def matchLabelAt (lbl cs : List Char) : Option String :=
  match stripPrefixL lbl cs with
  | none => none
  | some rest =>
    let ds := (rest.dropWhile wsChar).takeWhile numTokChar
    if ds.isEmpty then none else some (String.mk ds)

/-- `re.search(r"<label>\s*([0-9.]+)", s)`: first position where the pattern
matches, returning the captured numeric token. -/
def searchLabelNum (lbl : List Char) : List Char → Option String
  | [] => matchLabelAt lbl []
  | c :: cs =>
    match matchLabelAt lbl (c :: cs) with
    | some r => some r
    | none => searchLabelNum lbl cs

/-- `driver.get_driver_version()`: `None` when the host binary path is
absent; `DriverError` on spawn failure or non-zero exit; otherwise the token
after `"Driver Version:"`, or `None` when the label is not found. -/
def get_driver_version (w : DrvWorld) : Except DrvErr (Option String) :=
  if ¬ w.hostExists then .ok none
  else
    match w.smiOutcome with
    | .error e => .error (.driverError ("Failed to get driver version: " ++ e))
    | .ok (rc, out, err) =>
      if rc ≠ 0 then .error (.driverError ("nvidia-smi failed: " ++ err))
      else .ok (searchLabelNum "Driver Version:".toList out.toList)

/-- `driver.get_driver_cuda_version()`: same invocation, token after
`"CUDA Version:"`. -/
def get_driver_cuda_version (w : DrvWorld) : Except DrvErr (Option String) :=
  if ¬ w.hostExists then .ok none
  else
    match w.smiOutcome with
    | .error e => .error (.driverError ("Failed to get CUDA version: " ++ e))
    | .ok (rc, out, err) =>
      if rc ≠ 0 then .error (.driverError ("nvidia-smi failed: " ++ err))
      else .ok (searchLabelNum "CUDA Version:".toList out.toList)

/-- `driver.get_gpu_name()`: the `--query-gpu=name` invocation; stripped
stdout, `None` when empty. -/
def get_gpu_name (w : DrvWorld) : Except DrvErr (Option String) :=
  if ¬ w.hostExists then .ok none
  else
    match w.gpuOutcome with
    | .error e => .error (.driverError ("Failed to get GPU name: " ++ e))
    | .ok (rc, out, err) =>
      if rc ≠ 0 then .error (.driverError ("nvidia-smi failed: " ++ err))
      else
        let g := String.mk (trimL out.toList)
        .ok (if g = "" then none else some g)

/-- The info dictionary of `check_driver_compatibility`; `target_cuda = none`
models the key being absent (the not-found branch omits it). -/
structure InfoDict where
  driver_version : Option String
  cuda_version : Option String
  gpu_name : Option String
  min_required : String
  recommended : String
  target_cuda : Option String
deriving DecidableEq, Repr

/-- Lift a comparator exception into the evaluator's error type. -/
def liftVer {α : Type} : Except VerErr α → Except DrvErr α
  | .error (.invalidVersion s) => .error (.invalidVersion s)
  | .ok a => .ok a

/-- `driver.check_driver_compatibility()`: host binary absent → incompatible
result without raising; driver version falsy → `DriverError`; otherwise
best-effort CUDA version and GPU name, then the three-way classification
against the minimum and recommended thresholds. -/
def check_driver_compatibility (w : DrvWorld) :
    Except DrvErr (Bool × String × InfoDict) :=
  if ¬ w.hostExists then
    .ok (false, "Windows NVIDIA driver not found",
      ⟨none, none, none, MIN_WINDOWS_DRIVER, RECOMMENDED_DRIVER, none⟩)
  else
    match get_driver_version w with
    | .error e => .error e
    | .ok none => .error (.driverError "Could not determine driver version")
    | .ok (some v) =>
      if v = "" then .error (.driverError "Could not determine driver version")
      else
        match get_driver_cuda_version w with
        | .error e => .error e
        | .ok cv =>
          match get_gpu_name w with
          | .error e => .error e
          | .ok gn =>
            let info : InfoDict :=
              ⟨some v, cv, gn, MIN_WINDOWS_DRIVER, RECOMMENDED_DRIVER,
                some CUDA_VERSION⟩
            match liftVer (version_meets_minimum v MIN_WINDOWS_DRIVER) with
            | .error e => .error e
            | .ok true =>
              match liftVer (version_meets_minimum v RECOMMENDED_DRIVER) with
              | .error e => .error e
              | .ok true =>
                .ok (true, "Driver " ++ v ++
                  " is up-to-date and supports CUDA " ++ CUDA_VERSION, info)
              | .ok false =>
                .ok (true, "Driver " ++ v ++ " supports CUDA " ++ CUDA_VERSION ++
                  ", but " ++ RECOMMENDED_DRIVER ++ "+ recommended", info)
            | .ok false =>
              .ok (false, "Driver " ++ v ++ " is too old. Minimum " ++
                MIN_WINDOWS_DRIVER ++ " required for CUDA " ++ CUDA_VERSION, info)

/-! ### Environment detector (`system.py`)

A `SysWorld` records the `WSL_DISTRO_NAME` environment variable, existence of
the two WSLInterop marker files, and existence plus read outcome of
`/proc/version` (the read can raise `OSError`/`PermissionError`, which the
code catches). -/

structure SysWorld where
  envWSLDistro : Option String
  interop1Exists : Bool
  interop2Exists : Bool
  procVersionExists : Bool
  procVersionRead : Except String String
deriving DecidableEq, Repr

def containsSub (needle : List Char) : List Char → Bool
  | [] => (stripPrefixL needle ([] : List Char)).isSome
  | c :: cs => (stripPrefixL needle (c :: cs)).isSome || containsSub needle cs

/-- `re.search(r"(microsoft.*wsl2|wsl2)", content, re.IGNORECASE)` matches
iff `"wsl2"` occurs case-insensitively (the second alternative subsumes the
first). -/
def wslPatternMatch (content : String) : Bool :=
  containsSub "wsl2".toList (lowerL content.toList)

/-- Truthiness of `os.environ.get("WSL_DISTRO_NAME")`. -/
def envSignal (w : SysWorld) : Bool :=
  match w.envWSLDistro with
  | some s => s != ""
  | none => false

/-- Signal 3: `/proc/version` exists, reads successfully and matches the
marker pattern; a read error is caught and counts as no signal. -/
def procSignal (w : SysWorld) : Bool :=
  w.procVersionExists &&
    (match w.procVersionRead with
     | .ok c => wslPatternMatch c
     | .error _ => false)

/-- `system.is_wsl2()`: the three signals checked in order with early
return; a failed `/proc/version` read falls through to `False`. -/
def is_wsl2 (w : SysWorld) : Bool :=
  if envSignal w then true
  else if w.interop1Exists then true
  else if w.interop2Exists then true
  else if w.procVersionExists then
    match w.procVersionRead with
    | .ok c => if wslPatternMatch c then true else false
    | .error _ => false
  else false

/-! ### Helper lemmas -/

/-- The symlink-creation step never records a backup action. -/
theorem create_symlink_actions_no_backup (w : World) :
    countBackups (create_nvidia_smi_symlink w).2.2 = 0 := by
  unfold create_nvidia_smi_symlink
  repeat' split
  all_goals rfl

/-- The shared tail only appends the symlink-creation actions. -/
theorem fixTail_actions (w : World) (msgs : List String) (acts : List FsAction) :
    (fixTail w msgs acts).2.2 = acts ++ (create_nvidia_smi_symlink w).2.2 := by
  unfold fixTail
  rcases h : create_nvidia_smi_symlink w with ⟨r, w1, as⟩
  cases r <;> simp [h]
  split <;> rfl

/-- On a world whose local path does not exist, the regular-file block is
just the shared tail. -/
theorem fixRegularBlock_absent (w : World) (acts : List FsAction)
    (h : pathExistsLocal w = false) :
    fixRegularBlock w acts = fixTail w [] acts := by
  unfold fixRegularBlock
  simp [h]

/-! ### Claim theorems -/

/-- C10: `validate_path_safe` is permissive by default: with no
`allowed_parent` it accepts exactly the paths that resolve without error, so
containment is only enforced when a parent is supplied, and a resolution
failure yields `false` rather than an exception. -/
theorem validate_path_safe_default_permissive (p : String) :
    validate_path_safe p none = (resolvePath p).isSome := by
  unfold validate_path_safe
  cases resolvePath p <;> rfl

/-- C9: `version_meets_minimum` is `compare_versions ... >= 0`, and the
ordering is boundary inclusive on the spec's three example pairs. -/
theorem version_meets_minimum_spec :
    (∀ a b : String, version_meets_minimum a b =
      (compare_versions a b).map (fun c => decide (0 ≤ c))) ∧
    version_meets_minimum "566.03" "528.33" = .ok true ∧
    version_meets_minimum "500.00" "528.33" = .ok false ∧
    version_meets_minimum "528.33" "528.33" = .ok true :=
  ⟨fun _ _ => rfl, by rfl, by rfl, by rfl⟩

/-- C4 counterexample: `"1.2.post3"` contains the non-numeric dot-delimited
segment `"post3"`, yet `compare_versions` does not raise on the pair
`("1.2.post3", "1.0")`: PEP 440 accepts post-release suffixes, so the pair
compares normally (to `1`). -/
theorem compare_versions_nonnumeric_segment_no_raise :
    hasNonNumericSegment "1.2.post3" = true ∧
    compare_versions "1.2.post3" "1.0" = .ok 1 := by
  constructor
  · decide
  · rfl

/-- C4 amended: a version string that fails PEP 440 parsing makes
`compare_versions` raise `InvalidVersion` naming that string (the first
argument is parsed first); malformed input is never silently compared as
equal or treated as zero. -/
theorem compare_versions_invalid_raises (v1 v2 : String) :
    (parsePy v1 = none →
      compare_versions v1 v2 = .error (.invalidVersion v1)) ∧
    (parsePy v1 ≠ none → parsePy v2 = none →
      compare_versions v1 v2 = .error (.invalidVersion v2)) := by
  constructor
  · intro h
    unfold compare_versions
    rw [h]
  · intro h1 h2
    unfold compare_versions
    cases hp : parsePy v1 with
    | none => exact absurd hp h1
    | some a => rw [h2]

/-- Witness for the amended C4 at the concrete malformed string "1.2.foo". -/
theorem compare_versions_invalid_raises_witness :
    compare_versions "1.2.foo" "1.0" = .error (.invalidVersion "1.2.foo") ∧
    compare_versions "1.0" "1.2.foo" = .error (.invalidVersion "1.2.foo") :=
  ⟨(compare_versions_invalid_raises "1.2.foo" "1.0").1 (by rfl),
   (compare_versions_invalid_raises "1.0" "1.2.foo").2 (by decide) (by rfl)⟩

/-- C7: when the host binary is absent, `fix_nvidia_smi` raises
`NvidiaSmiError` immediately: the world is untouched and no backup, removal
or symlink creation is recorded. -/
theorem fix_host_missing_fails_immediately (w : World)
    (h : w.hostExists = false) :
    fix_nvidia_smi w =
      (.error (.nvidiaSmiError
        "Windows nvidia-smi not found. Please install NVIDIA drivers on Windows first."),
        w, []) := by
  unfold fix_nvidia_smi
  simp [h]

/-- Witness for C7 at a concrete world with the host binary absent. -/
theorem fix_host_missing_fails_immediately_witness :
    fix_nvidia_smi ⟨false, false, .regular true, true, true, true, true, true, "t"⟩ =
      (.error (.nvidiaSmiError
        "Windows nvidia-smi not found. Please install NVIDIA drivers on Windows first."),
        ⟨false, false, .regular true, true, true, true, true, true, "t"⟩, []) :=
  fix_host_missing_fails_immediately _ rfl

/-- C3: when the local path holds a regular file and the constructed backup
path fails `validate_path_safe` against the local parent directory,
`backup_nvidia_smi` raises `NvidiaSmiError "Invalid backup path"` (the
code's realisation of `UnsafePathError`) before any move: the world is
unchanged and no action is performed. -/
theorem backup_unsafe_path_raises (w : World)
    (hex : pathExistsLocal w = true)
    (hsym : is_nvidia_smi_symlink w = false)
    (hval : validate_path_safe (backupPathOf w.timestamp)
      (some wslParentDir) = false) :
    backup_nvidia_smi w =
      (.error (.nvidiaSmiError "Invalid backup path"), w, []) := by
  unfold backup_nvidia_smi
  simp [hex, hsym, hval]

/-- Witness for C3: a backup path escaping the parent via relative traversal
(`timestamp = "x/../.."`). -/
theorem backup_unsafe_path_raises_witness :
    backup_nvidia_smi ⟨true, true, .regular false, true, true, true, true, true, "x/../.."⟩ =
      (.error (.nvidiaSmiError "Invalid backup path"),
        ⟨true, true, .regular false, true, true, true, true, true, "x/../.."⟩, []) :=
  backup_unsafe_path_raises _ rfl rfl (by rfl)

/-- C8: `is_wsl2` returns true exactly when one of the three signals is
present — the environment variable set and non-empty, a marker file present,
or `/proc/version` readable and matching the marker pattern.  A failed
`/proc/version` read only makes that signal absent (`procSignal`), and the
function is total: detection never propagates an exception. -/
theorem is_wsl2_any_signal (w : SysWorld) :
    is_wsl2 w =
      (envSignal w || w.interop1Exists || w.interop2Exists || procSignal w) := by
  rcases w with ⟨env, i1, i2, pe, pr⟩
  unfold is_wsl2 procSignal
  by_cases he : envSignal ⟨env, i1, i2, pe, pr⟩ <;>
    cases i1 <;> cases i2 <;> cases pe <;> cases pr <;> simp [he]

/-- C5: the evaluator's two failure shapes are distinct: an absent host
binary gives a non-raising incompatible result with all driver-info fields
absent, while a present binary whose output yields no driver version makes
`check_driver_compatibility` raise
`DriverError "Could not determine driver version"`. -/
theorem check_driver_compatibility_failure_shapes (w : DrvWorld) :
    (w.hostExists = false →
      check_driver_compatibility w =
        .ok (false, "Windows NVIDIA driver not found",
          ⟨none, none, none, MIN_WINDOWS_DRIVER, RECOMMENDED_DRIVER, none⟩)) ∧
    (w.hostExists = true → get_driver_version w = .ok none →
      check_driver_compatibility w =
        .error (.driverError "Could not determine driver version")) := by
  constructor
  · intro h
    unfold check_driver_compatibility
    simp [h]
  · intro h1 h2
    unfold check_driver_compatibility
    simp [h1, h2]

/-- Witness for C5: the absent-host world, and a present host whose
`nvidia-smi` output carries no `"Driver Version:"` token. -/
theorem check_driver_compatibility_failure_shapes_witness :
    check_driver_compatibility ⟨false, .ok (0, "", ""), .ok (0, "", "")⟩ =
      .ok (false, "Windows NVIDIA driver not found",
        ⟨none, none, none, MIN_WINDOWS_DRIVER, RECOMMENDED_DRIVER, none⟩) ∧
    check_driver_compatibility ⟨true, .ok (0, "no version printed", ""), .ok (0, "", "")⟩ =
      .error (.driverError "Could not determine driver version") :=
  ⟨(check_driver_compatibility_failure_shapes _).1 rfl,
   (check_driver_compatibility_failure_shapes _).2 rfl (by rfl)⟩

/-- The shared tail never adds a backup action to the trace. -/
theorem countBackups_fixTail (w : World) (msgs : List String)
    (acts : List FsAction) :
    countBackups (fixTail w msgs acts).2.2 = countBackups acts := by
  rw [fixTail_actions]
  unfold countBackups
  rw [List.countP_append]
  have h := create_symlink_actions_no_backup w
  unfold countBackups at h
  omega

/-- C1: the repair is idempotent from `Missing`: with the host binary
present and working and the privileged operations succeeding, a first repair
followed immediately by a second yields success with the "already working"
message on the second call, the local path being a working symlink to the
host binary, and the second call changing nothing and recording no action. -/
theorem fix_nvidia_smi_idempotent_from_missing (w : World)
    (hl : w.localFs = .missing) (hh : w.hostExists = true)
    (hw : w.hostWorks = true) (hmk : w.sudoMkdirOk = true)
    (hln : w.sudoLnOk = true) :
    (fix_nvidia_smi (fix_nvidia_smi w).2.1).1 =
      .ok (true, "nvidia-smi already working (symlink to " ++
        windowsNvidiaSmiPath ++ ")") ∧
    (fix_nvidia_smi w).2.1.localFs = .symlinkTo windowsNvidiaSmiPath ∧
    execLocal (fix_nvidia_smi w).2.1 = true ∧
    (fix_nvidia_smi (fix_nvidia_smi w).2.1).2.1 = (fix_nvidia_smi w).2.1 ∧
    (fix_nvidia_smi (fix_nvidia_smi w).2.1).2.2 = [] := by
  by_cases hpe : w.parentExists = true <;>
    simp [fix_nvidia_smi, fixRegularBlock, fixTail, create_nvidia_smi_symlink,
      test_nvidia_smi, execLocal, is_nvidia_smi_symlink, pathExistsLocal,
      get_nvidia_smi_target, hl, hh, hw, hmk, hln, hpe]

/-- Witness for C1 at a concrete `Missing` world. -/
theorem fix_nvidia_smi_idempotent_from_missing_witness :
    (fix_nvidia_smi (fix_nvidia_smi
        ⟨true, true, .missing, false, true, true, true, true, "20250101_000000"⟩).2.1).1 =
      .ok (true, "nvidia-smi already working (symlink to " ++
        windowsNvidiaSmiPath ++ ")") ∧
    (fix_nvidia_smi
        ⟨true, true, .missing, false, true, true, true, true, "20250101_000000"⟩).2.1.localFs =
      .symlinkTo windowsNvidiaSmiPath ∧
    execLocal (fix_nvidia_smi
        ⟨true, true, .missing, false, true, true, true, true, "20250101_000000"⟩).2.1 = true ∧
    (fix_nvidia_smi (fix_nvidia_smi
        ⟨true, true, .missing, false, true, true, true, true, "20250101_000000"⟩).2.1).2.1 =
      (fix_nvidia_smi
        ⟨true, true, .missing, false, true, true, true, true, "20250101_000000"⟩).2.1 ∧
    (fix_nvidia_smi (fix_nvidia_smi
        ⟨true, true, .missing, false, true, true, true, true, "20250101_000000"⟩).2.1).2.2 = [] :=
  fix_nvidia_smi_idempotent_from_missing _ rfl rfl rfl rfl rfl

/-- C6: whenever the shared tail runs (the local state is not an already
working file or symlink), the symlink is created and the re-run liveness
probe fails, the repair returns success `false` with the partial-failure
message — the code's wording of the spec's "Symlink created but binary still
not working" — rather than raising. -/
theorem fix_symlink_probe_fail_reports_failure (w : World)
    (hh : w.hostExists = true) (hw : w.hostWorks = false)
    (hnr : w.localFs ≠ .regular true)
    (hmv : w.sudoMvOk = true) (hrm : w.sudoRmOk = true)
    (hmk : w.sudoMkdirOk = true) (hln : w.sudoLnOk = true)
    (hval : validate_path_safe (backupPathOf w.timestamp)
      (some wslParentDir) = true) :
    (fix_nvidia_smi w).1 =
      .ok (false, "Symlink created but nvidia-smi still not working") ∧
    FsAction.createSymlink ∈ (fix_nvidia_smi w).2.2 := by
  rcases hlf : w.localFs with _ | b | t
  · by_cases hpe : w.parentExists = true <;>
      simp [fix_nvidia_smi, fixRegularBlock, fixTail, create_nvidia_smi_symlink,
        test_nvidia_smi, execLocal, is_nvidia_smi_symlink, pathExistsLocal,
        hlf, hh, hw, hmk, hln, hpe]
  · cases b
    · by_cases hpe : w.parentExists = true <;>
        simp [fix_nvidia_smi, fixRegularBlock, fixTail, backup_nvidia_smi,
          create_nvidia_smi_symlink, test_nvidia_smi, execLocal,
          is_nvidia_smi_symlink, pathExistsLocal,
          hlf, hh, hw, hmv, hmk, hln, hval, hpe]
    · exact absurd hlf hnr
  · by_cases hpe : w.parentExists = true <;>
      simp [fix_nvidia_smi, fixRegularBlock, fixTail, create_nvidia_smi_symlink,
        test_nvidia_smi, execLocal, is_nvidia_smi_symlink, pathExistsLocal,
        hlf, hh, hw, hrm, hmk, hln, hpe]

/-- Witness for C6 at a concrete `Missing` world whose host binary exists
but does not execute successfully. -/
theorem fix_symlink_probe_fail_reports_failure_witness :
    (fix_nvidia_smi ⟨true, false, .missing, true, true, true, true, true, "t"⟩).1 =
      .ok (false, "Symlink created but nvidia-smi still not working") ∧
    FsAction.createSymlink ∈
      (fix_nvidia_smi ⟨true, false, .missing, true, true, true, true, true, "t"⟩).2.2 :=
  fix_symlink_probe_fail_reports_failure _ rfl rfl (by simp) rfl rfl rfl rfl (by rfl)

/-- C2: a backup happens exactly when the object replaced is a regular file:
repairing a `RegularFileBroken` world records exactly the timestamped backup
move followed by the symlink creation and leaves the local path a symlink to
the host binary, while repairing any symlink state or a `Missing` state
records no backup at all. -/
theorem backup_iff_regular_file :
    (∀ w : World, w.localFs = .regular false → w.hostExists = true →
      w.parentExists = true → w.sudoMvOk = true → w.sudoLnOk = true →
      validate_path_safe (backupPathOf w.timestamp) (some wslParentDir) = true →
      (fix_nvidia_smi w).2.2 =
        [.backupMove (backupPathOf w.timestamp), .createSymlink] ∧
      (fix_nvidia_smi w).2.1.localFs = .symlinkTo windowsNvidiaSmiPath) ∧
    (∀ (w : World) (t : String), w.localFs = .symlinkTo t →
      countBackups (fix_nvidia_smi w).2.2 = 0) ∧
    (∀ w : World, w.localFs = .missing →
      countBackups (fix_nvidia_smi w).2.2 = 0) := by
  refine ⟨?_, ?_, ?_⟩
  · intro w hl hh hpe hmv hln hval
    by_cases hhw : w.hostWorks = true <;>
      simp [fix_nvidia_smi, fixRegularBlock, fixTail, backup_nvidia_smi,
        create_nvidia_smi_symlink, test_nvidia_smi, execLocal,
        is_nvidia_smi_symlink, pathExistsLocal, hl, hh, hpe, hmv, hln, hval, hhw]
  · intro w t hl
    by_cases hh : w.hostExists = true
    · by_cases ht : test_nvidia_smi w none = true
      · simp [fix_nvidia_smi, is_nvidia_smi_symlink, hl, hh, ht, countBackups]
      · by_cases hrm : w.sudoRmOk = true
        · have habs : pathExistsLocal { w with localFs := .missing } = false := rfl
          have hfix : fix_nvidia_smi w =
              fixRegularBlock { w with localFs := .missing } [.removeSymlink] := by
            simp [fix_nvidia_smi, is_nvidia_smi_symlink, hl, hh, ht, hrm]
          rw [hfix, fixRegularBlock_absent _ _ habs, countBackups_fixTail]
          rfl
        · simp [fix_nvidia_smi, is_nvidia_smi_symlink, hl, hh, ht, hrm,
            countBackups]
    · simp [fix_nvidia_smi, hh, countBackups]
  · intro w hl
    by_cases hh : w.hostExists = true
    · have habs : pathExistsLocal w = false := by
        simp [pathExistsLocal, hl]
      have hfix : fix_nvidia_smi w = fixRegularBlock w [] := by
        simp [fix_nvidia_smi, is_nvidia_smi_symlink, hl, hh]
      rw [hfix, fixRegularBlock_absent _ _ habs, countBackups_fixTail]
      rfl
    · simp [fix_nvidia_smi, hh, countBackups]

/-- Witness for C2 at concrete broken-regular-file, symlink and missing
worlds. -/
theorem backup_iff_regular_file_witness :
    ((fix_nvidia_smi
        ⟨true, true, .regular false, true, true, true, true, true, "20250101_000000"⟩).2.2 =
      [.backupMove (backupPathOf "20250101_000000"), .createSymlink] ∧
     (fix_nvidia_smi
        ⟨true, true, .regular false, true, true, true, true, true, "20250101_000000"⟩).2.1.localFs =
      .symlinkTo windowsNvidiaSmiPath) ∧
    countBackups (fix_nvidia_smi
      ⟨true, true, .symlinkTo "/elsewhere", true, true, true, true, true, "t"⟩).2.2 = 0 ∧
    countBackups (fix_nvidia_smi
      ⟨true, true, .missing, true, true, true, true, true, "t"⟩).2.2 = 0 :=
  ⟨backup_iff_regular_file.1 _ rfl rfl rfl rfl rfl (by rfl),
   backup_iff_regular_file.2.1 _ "/elsewhere" rfl,
   backup_iff_regular_file.2.2 _ rfl⟩
